import Mathlib

/-!
Verification development for `open-gl-triangle-to-file.c`, a single-shot
headless OpenGL/EGL renderer that draws one triangle into an FBO-backed
texture, reads the pixels back and serializes them to a PPM (P6) file.

The C program is embedded shallowly: every GL/EGL/libc call outcome that the
program can observe is a field of `GLEnv`, and `main` is a pure function from
`GLEnv` to a `RunResult` recording the exit code, the trace of calls made
(`events`), the path handed to `save_ppm`, and the bytes of the file written
(if any). Bytes are modelled as `Nat` values.
-/

/-- Output image width, from `#define WIDTH 640`. -/
def WIDTH : Nat := 640

/-- Output image height, from `#define HEIGHT 480`. -/
def HEIGHT : Nat := 480

/-- Decimal ASCII bytes of a natural number, as `%d` prints it in `fprintf`. -/
def decBytes (n : Nat) : List Nat := (Nat.toDigits 10 n).map Char.toNat

/-- Bytes of `fprintf(f, "P6\n%d %d\n255\n", width, height)`:
the three-line PPM header. `80 54 10` is `P6\n`, `32` is the space,
`50 53 53 10` is `255\n`. -/
def ppmHeader (width height : Nat) : List Nat :=
  [80, 54, 10] ++ decBytes width ++ [32] ++ decBytes height ++ [10, 50, 53, 53, 10]

/-- Bytes written by the loop
`for (int y = height - 1; y >= 0; y--) fwrite(&pixels[y * width * 3], 1, width * 3, f);`
in `save_ppm`: rows of `width * 3` bytes, emitted from buffer row `height - 1`
down to buffer row `0`. -/
def ppmPayload (width : Nat) (pixels : List Nat) : Nat → List Nat
  | 0 => []
  | h + 1 => (pixels.drop (h * (width * 3))).take (width * 3) ++ ppmPayload width pixels h

/-- Observable calls and diagnostics of the program, in program order. -/
inductive Event where
  | eglGetDisplay
  | errNoDisplay
  | eglInit
  | errInit
  | eglChooseConfig
  | errChooseConfig
  | eglBindAPI
  | eglCreateContext
  | errCreateContext
  | eglCreatePbufferSurface
  | errCreateSurface
  | eglMakeCurrent
  | errMakeCurrent
  | genFramebuffers
  | bindFramebuffer
  | genTextures
  | bindTexture
  | texImage2D
  | texParameterMinLinear
  | texParameterMagLinear
  | framebufferTexture2D
  | checkFramebufferStatus
  | errFramebufferIncomplete
  | createVertexShader
  | shaderSourceVertex
  | compileVertexShader
  | createFragmentShader
  | shaderSourceFragment
  | compileFragmentShader
  | shaderCompileError (log : List Nat)
  | createProgram
  | attachVertexShader
  | attachFragmentShader
  | linkProgram
  | deleteVertexShader
  | deleteFragmentShader
  | useProgram
  | getUniformLocation
  | uniform4fv
  | warnUniformNotFound
  | viewport
  | clearColor
  | glClear
  | genVertexArrays
  | bindVertexArray
  | drawArrays
  | mallocPixels
  | readPixels
  | fopenOutput
  | errFopen
  | writeFile (bytes : List Nat)
  | savedMessage
  | deleteVertexArray
  | deleteProgram
  | deleteFramebuffers
  | deleteTextures
  | freePixels
  | eglDestroySurface
  | eglDestroyContext
  | eglTerminate

/-- Embedding of `save_ppm(filepath, width, height, pixels)`.
`fopenOk` is whether `fopen(filepath, "wb")` succeeds. On failure the function
prints an error and returns without writing; on success it writes the header
followed by the rows in reverse order, closes the file and prints a message.
The first component is the event trace, the second the file bytes (`none`
when no file was created). -/
def save_ppm (fopenOk : Bool) (width height : Nat) (pixels : List Nat) :
    List Event × Option (List Nat) :=
  if fopenOk then
    ([Event.fopenOutput,
      Event.writeFile (ppmHeader width height ++ ppmPayload width pixels height),
      Event.savedMessage],
     some (ppmHeader width height ++ ppmPayload width pixels height))
  else
    ([Event.fopenOutput, Event.errFopen], none)

/-- Embedding of `check_shader_compile(shader)`: queries `GL_COMPILE_STATUS`;
on failure retrieves at most 511 log bytes into a 512-byte buffer
(`glGetShaderInfoLog(shader, 512, NULL, infoLog)`) and prints them to stderr.
It never aborts the program. -/
def check_shader_compile (success : Bool) (infoLog : List Nat) : List Event :=
  if success then [] else [Event.shaderCompileError (infoLog.take 511)]

/-- Oracle for every outcome the program can observe from EGL, GL and libc. -/
structure GLEnv where
  /-- `eglGetDisplay(EGL_DEFAULT_DISPLAY) != EGL_NO_DISPLAY` -/
  getDisplayOk : Bool
  /-- return value of `eglInitialize` -/
  initializeOk : Bool
  /-- return value of `eglChooseConfig` -/
  chooseConfigRet : Bool
  /-- the count `eglChooseConfig` stores in `numConfigs`; the program never reads it -/
  numConfigs : Nat
  /-- `eglCreateContext(...) != EGL_NO_CONTEXT` -/
  createContextOk : Bool
  /-- `eglCreatePbufferSurface(...) != EGL_NO_SURFACE` -/
  createSurfaceOk : Bool
  /-- return value of `eglMakeCurrent` -/
  makeCurrentOk : Bool
  /-- `glCheckFramebufferStatus(GL_FRAMEBUFFER) == GL_FRAMEBUFFER_COMPLETE` -/
  fboComplete : Bool
  /-- `GL_COMPILE_STATUS` of the vertex shader -/
  vertexCompileOk : Bool
  /-- info log of the vertex shader -/
  vertexLog : List Nat
  /-- `GL_COMPILE_STATUS` of the fragment shader -/
  fragmentCompileOk : Bool
  /-- info log of the fragment shader -/
  fragmentLog : List Nat
  /-- `GL_LINK_STATUS` of the program after `glLinkProgram`; the program never queries it -/
  linkOk : Bool
  /-- result of `glGetUniformLocation(shaderProgram, "u_Vertices")`; `-1` means not found -/
  uniformLoc : Int
  /-- bytes `glReadPixels` deposits in the malloc-ed buffer -/
  pixelData : List Nat
  /-- `fopen("output.ppm", "wb")` succeeds -/
  fopenOk : Bool

/-- Observable result of one process run. -/
structure RunResult where
  /-- value returned from `main` -/
  exitCode : Int
  /-- trace of calls and diagnostics, in order -/
  events : List Event
  /-- the path argument passed to `save_ppm`, when the write step was reached -/
  savePath : Option String
  /-- bytes of the output file, when one was created -/
  file : Option (List Nat)

/-- Embedding of the `main` function of the C program (named `mainRun` because
Lean reserves `main` for executables): the straight-line pipeline with an early
`return -1` at each failed setup check. Note that, as in the source, the
`numConfigs` output of `eglChooseConfig` is never inspected, `GL_LINK_STATUS`
is never queried, shader compile failures and a missing uniform location only
print diagnostics, and a failed `fopen` inside `save_ppm` does not change the
exit code. -/
def mainRun (env : GLEnv) : RunResult :=
  let e1 := [Event.eglGetDisplay]
  if env.getDisplayOk = false then
    { exitCode := -1, events := e1 ++ [Event.errNoDisplay], savePath := none, file := none }
  else
  let e2 := e1 ++ [Event.eglInit]
  if env.initializeOk = false then
    { exitCode := -1, events := e2 ++ [Event.errInit], savePath := none, file := none }
  else
  let e3 := e2 ++ [Event.eglChooseConfig]
  if env.chooseConfigRet = false then
    { exitCode := -1, events := e3 ++ [Event.errChooseConfig], savePath := none, file := none }
  else
  let e4 := e3 ++ [Event.eglBindAPI, Event.eglCreateContext]
  if env.createContextOk = false then
    { exitCode := -1, events := e4 ++ [Event.errCreateContext], savePath := none, file := none }
  else
  let e5 := e4 ++ [Event.eglCreatePbufferSurface]
  if env.createSurfaceOk = false then
    { exitCode := -1, events := e5 ++ [Event.errCreateSurface], savePath := none, file := none }
  else
  let e6 := e5 ++ [Event.eglMakeCurrent]
  if env.makeCurrentOk = false then
    { exitCode := -1, events := e6 ++ [Event.errMakeCurrent], savePath := none, file := none }
  else
  let e7 := e6 ++ [Event.genFramebuffers, Event.bindFramebuffer, Event.genTextures,
    Event.bindTexture, Event.texImage2D, Event.texParameterMinLinear,
    Event.texParameterMagLinear, Event.framebufferTexture2D, Event.checkFramebufferStatus]
  if env.fboComplete = false then
    { exitCode := -1, events := e7 ++ [Event.errFramebufferIncomplete],
      savePath := none, file := none }
  else
  let e8 := e7 ++ [Event.createVertexShader, Event.shaderSourceVertex,
      Event.compileVertexShader]
    ++ check_shader_compile env.vertexCompileOk env.vertexLog
    ++ [Event.createFragmentShader, Event.shaderSourceFragment, Event.compileFragmentShader]
    ++ check_shader_compile env.fragmentCompileOk env.fragmentLog
    ++ [Event.createProgram, Event.attachVertexShader, Event.attachFragmentShader,
      Event.linkProgram, Event.deleteVertexShader, Event.deleteFragmentShader,
      Event.useProgram, Event.getUniformLocation]
  let e9 := e8 ++ (if env.uniformLoc ≠ -1 then [Event.uniform4fv]
                   else [Event.warnUniformNotFound])
  let e10 := e9 ++ [Event.viewport, Event.clearColor, Event.glClear,
    Event.genVertexArrays, Event.bindVertexArray, Event.drawArrays,
    Event.mallocPixels, Event.readPixels]
  let s := save_ppm env.fopenOk WIDTH HEIGHT env.pixelData
  let e11 := e10 ++ s.1 ++ [Event.deleteVertexArray, Event.deleteProgram,
    Event.deleteFramebuffers, Event.deleteTextures, Event.freePixels,
    Event.eglDestroySurface, Event.eglDestroyContext, Event.eglTerminate]
  { exitCode := 0, events := e11, savePath := some "output.ppm", file := s.2 }

/-- The seven setup checks of the pipeline; a run passes them all iff it
reaches the shader/draw/readback/write portion of `main`. -/
def setupOk (env : GLEnv) : Bool :=
  env.getDisplayOk && env.initializeOk && env.chooseConfigRet &&
  env.createContextOk && env.createSurfaceOk && env.makeCurrentOk && env.fboComplete

/-- Baseline oracle in which every call succeeds, the uniform is found, the
shader logs are empty and the readback buffer is empty. Concrete witnesses
and counterexamples below are produced by overriding single fields. -/
def envBase : GLEnv :=
  { getDisplayOk := true, initializeOk := true, chooseConfigRet := true,
    numConfigs := 1, createContextOk := true, createSurfaceOk := true,
    makeCurrentOk := true, fboComplete := true, vertexCompileOk := true,
    vertexLog := [], fragmentCompileOk := true, fragmentLog := [],
    linkOk := true, uniformLoc := 0, pixelData := [], fopenOk := true }

/-- Unfolding of the seven setup checks. -/
theorem setupOk_iff (env : GLEnv) :
    setupOk env = true ↔
      env.getDisplayOk = true ∧ env.initializeOk = true ∧
      env.chooseConfigRet = true ∧ env.createContextOk = true ∧
      env.createSurfaceOk = true ∧ env.makeCurrentOk = true ∧
      env.fboComplete = true := by
  simp [setupOk, Bool.and_eq_true, and_assoc]

/-- Dropping the length of the first list plus `b` from an append drops `b`
from the second list. -/
theorem drop_append_of_length {α : Type} (l1 l2 : List α) (a b : Nat)
    (h : l1.length = a) : (l1 ++ l2).drop (a + b) = l2.drop b := by
  subst h
  exact List.drop_append b

/-- When the buffer holds at least `h` full rows, the payload written by the
row loop of `save_ppm` is exactly `h` rows of `width * 3` bytes. -/
theorem ppmPayload_length (width : Nat) (pixels : List Nat) (h : Nat)
    (hlen : h * (width * 3) ≤ pixels.length) :
    (ppmPayload width pixels h).length = h * (width * 3) := by
  induction h with
  | zero => simp [ppmPayload]
  | succ n ih =>
    have hmul : (n + 1) * (width * 3) = n * (width * 3) + width * 3 := by ring
    have hn : n * (width * 3) + width * 3 ≤ pixels.length := by omega
    have ih1 := ih (by omega)
    simp only [ppmPayload, List.length_append, ih1, List.length_take, List.length_drop]
    omega

/-- Row extraction from the payload of `save_ppm`: the block of `width * 3`
bytes at file-row position `j` is buffer row `h - 1 - j`. -/
theorem ppmPayload_row (width : Nat) (pixels : List Nat) :
    ∀ h j : Nat, j < h → h * (width * 3) ≤ pixels.length →
      ((ppmPayload width pixels h).drop (j * (width * 3))).take (width * 3) =
        (pixels.drop ((h - 1 - j) * (width * 3))).take (width * 3) := by
  intro h
  induction h with
  | zero => exact fun j hj _ => absurd hj (Nat.not_lt_zero j)
  | succ n ih =>
    intro j hj hlen
    have hmul : (n + 1) * (width * 3) = n * (width * 3) + width * 3 := by ring
    have hrow : ((pixels.drop (n * (width * 3))).take (width * 3)).length = width * 3 := by
      simp only [List.length_take, List.length_drop]
      omega
    cases j with
    | zero =>
      simp only [ppmPayload, Nat.zero_mul, List.drop_zero]
      rw [List.take_left' hrow]
      have he : n + 1 - 1 - 0 = n := by omega
      rw [he]
    | succ k =>
      have hk : k < n := by omega
      have hstep : (k + 1) * (width * 3) = width * 3 + k * (width * 3) := by ring
      simp only [ppmPayload]
      rw [hstep, drop_append_of_length _ _ _ _ hrow]
      rw [ih k hk (by omega)]
      have he : n + 1 - 1 - (k + 1) = n - 1 - k := by omega
      rw [he]

/-- C1: for every successful run, the bytes written by save_ppm to the output
file begin with exactly the three-line header P6, 640 480, 255 (15 bytes),
and the raw payload after the header is exactly 640 * 480 * 3 bytes long. -/
theorem mainRun_file_header_and_payload_size (env : GLEnv)
    (hs : setupOk env = true) (hopen : env.fopenOk = true)
    (hlen : env.pixelData.length = 640 * 480 * 3) :
    ∃ bytes, (mainRun env).file = some bytes ∧
      bytes.take 15 = "P6\n640 480\n255\n".data.map Char.toNat ∧
      (bytes.drop 15).length = 640 * 480 * 3 := by
  obtain ⟨h1, h2, h3, h4, h5, h6, h7⟩ := (setupOk_iff env).mp hs
  have hfile : (mainRun env).file =
      some (ppmHeader WIDTH HEIGHT ++ ppmPayload WIDTH env.pixelData HEIGHT) := by
    simp [mainRun, h1, h2, h3, h4, h5, h6, h7, save_ppm, hopen]
  refine ⟨_, hfile, ?_, ?_⟩
  · rw [List.take_left' (by decide : (ppmHeader WIDTH HEIGHT).length = 15)]
    decide
  · rw [List.drop_left' (by decide : (ppmHeader WIDTH HEIGHT).length = 15)]
    rw [ppmPayload_length WIDTH env.pixelData HEIGHT (by rw [hlen]; decide)]
    decide

/-- Successful environment whose readback buffer is an all-zero image of the
exact size the program allocates. -/
def envC1 : GLEnv := { envBase with pixelData := List.replicate (640 * 480 * 3) 0 }

/-- Witness for C1 on a concrete all-zero 640 x 480 readback buffer. -/
theorem mainRun_file_header_and_payload_size_witness :
    (setupOk envC1 = true ∧ envC1.fopenOk = true ∧
      envC1.pixelData.length = 640 * 480 * 3) ∧
    (∃ bytes, (mainRun envC1).file = some bytes ∧
      bytes.take 15 = "P6\n640 480\n255\n".data.map Char.toNat ∧
      (bytes.drop 15).length = 640 * 480 * 3) :=
  ⟨⟨rfl, rfl, List.length_replicate (640 * 480 * 3) 0⟩,
    mainRun_file_header_and_payload_size envC1 rfl rfl
      (List.length_replicate (640 * 480 * 3) 0)⟩

/-- C2: for every pixel buffer of size width * height * 3 and every row index
i below height, save_ppm emits buffer row i as file row height - 1 - i (rows
in reverse order), with the bytes of each row copied unchanged. -/
theorem save_ppm_row_flip (width height : Nat) (pixels : List Nat) (i : Nat)
    (hlen : pixels.length = width * height * 3) (hi : i < height) :
    ∃ bytes, (save_ppm true width height pixels).2 = some bytes ∧
      ((bytes.drop (ppmHeader width height).length).drop
          ((height - 1 - i) * (width * 3))).take (width * 3) =
        (pixels.drop (i * (width * 3))).take (width * 3) := by
  refine ⟨ppmHeader width height ++ ppmPayload width pixels height, rfl, ?_⟩
  rw [List.drop_left' (rfl : (ppmHeader width height).length = _)]
  have h1 : height * (width * 3) ≤ pixels.length := le_of_eq (by rw [hlen]; ring)
  rw [ppmPayload_row width pixels height (height - 1 - i) (by omega) h1]
  have he : height - 1 - (height - 1 - i) = i := by omega
  rw [he]

/-- Witness for C2 on a concrete 2 x 2 buffer of twelve distinct bytes,
bottom row 0: file row 1 equals buffer row 0. -/
theorem save_ppm_row_flip_witness :
    (([0, 1, 2, 3, 4, 5, 6, 7, 8, 9, 10, 11] : List Nat).length = 2 * 2 * 3 ∧
      0 < 2) ∧
    (∃ bytes,
      (save_ppm true 2 2 [0, 1, 2, 3, 4, 5, 6, 7, 8, 9, 10, 11]).2 = some bytes ∧
      ((bytes.drop (ppmHeader 2 2).length).drop ((2 - 1 - 0) * (2 * 3))).take (2 * 3) =
        (([0, 1, 2, 3, 4, 5, 6, 7, 8, 9, 10, 11] : List Nat).drop
          (0 * (2 * 3))).take (2 * 3)) :=
  ⟨⟨by decide, by decide⟩,
    save_ppm_row_flip 2 2 [0, 1, 2, 3, 4, 5, 6, 7, 8, 9, 10, 11] 0
      (by decide) (by decide)⟩

/-- C3: if opening the output path fails, save_ppm reports an error and the
run writes nothing at all (no header, no payload, no file), while every
previously acquired GPU resource (vertex-array state, program, framebuffer,
texture, pixel buffer, surface, context, display) is still released before
the process exits. -/
theorem fopen_failure_no_write_resources_released (env : GLEnv)
    (hs : setupOk env = true) (hopen : env.fopenOk = false) :
    (mainRun env).file = none ∧
    Event.errFopen ∈ (mainRun env).events ∧
    (∀ bs, Event.writeFile bs ∉ (mainRun env).events) ∧
    Event.deleteVertexArray ∈ (mainRun env).events ∧
    Event.deleteProgram ∈ (mainRun env).events ∧
    Event.deleteFramebuffers ∈ (mainRun env).events ∧
    Event.deleteTextures ∈ (mainRun env).events ∧
    Event.freePixels ∈ (mainRun env).events ∧
    Event.eglDestroySurface ∈ (mainRun env).events ∧
    Event.eglDestroyContext ∈ (mainRun env).events ∧
    Event.eglTerminate ∈ (mainRun env).events := by
  obtain ⟨h1, h2, h3, h4, h5, h6, h7⟩ := (setupOk_iff env).mp hs
  cases hv : env.vertexCompileOk <;> cases hf : env.fragmentCompileOk <;>
    rcases eq_or_ne env.uniformLoc (-1) with hu | hu <;>
    simp [mainRun, h1, h2, h3, h4, h5, h6, h7, hv, hf, hu, hopen,
      save_ppm, check_shader_compile]

/-- Environment in which the whole pipeline succeeds but fopen fails. -/
def envFopenFail : GLEnv := { envBase with fopenOk := false }

/-- Witness for C3 at a concrete run whose fopen fails. -/
theorem fopen_failure_no_write_resources_released_witness :
    (setupOk envFopenFail = true ∧ envFopenFail.fopenOk = false) ∧
    ((mainRun envFopenFail).file = none ∧
     Event.errFopen ∈ (mainRun envFopenFail).events ∧
     Event.writeFile [] ∉ (mainRun envFopenFail).events ∧
     Event.deleteVertexArray ∈ (mainRun envFopenFail).events ∧
     Event.deleteProgram ∈ (mainRun envFopenFail).events ∧
     Event.deleteFramebuffers ∈ (mainRun envFopenFail).events ∧
     Event.deleteTextures ∈ (mainRun envFopenFail).events ∧
     Event.freePixels ∈ (mainRun envFopenFail).events ∧
     Event.eglDestroySurface ∈ (mainRun envFopenFail).events ∧
     Event.eglDestroyContext ∈ (mainRun envFopenFail).events ∧
     Event.eglTerminate ∈ (mainRun envFopenFail).events) := by
  have T := fopen_failure_no_write_resources_released envFopenFail rfl rfl
  exact ⟨⟨rfl, rfl⟩, T.1, T.2.1, T.2.2.1 [], T.2.2.2.1, T.2.2.2.2.1,
    T.2.2.2.2.2.1, T.2.2.2.2.2.2.1, T.2.2.2.2.2.2.2.1, T.2.2.2.2.2.2.2.2.1,
    T.2.2.2.2.2.2.2.2.2.1, T.2.2.2.2.2.2.2.2.2.2⟩

/-- Environment in which eglChooseConfig returns success but reports zero
matching configurations. -/
def envNoConfigs : GLEnv := { envBase with numConfigs := 0 }

/-- Counterexample to C4: with zero matching configurations (numConfigs = 0)
but a successful eglChooseConfig return, the pipeline is not aborted: it
proceeds to context creation and completes with exit code 0, because the
code never inspects numConfigs. -/
theorem no_matching_config_not_fatal_cex :
    envNoConfigs.numConfigs = 0 ∧
    (mainRun envNoConfigs).exitCode = 0 ∧
    Event.eglCreateContext ∈ (mainRun envNoConfigs).events ∧
    (mainRun envNoConfigs).file.isSome = true := by
  refine ⟨rfl, rfl, ?_, rfl⟩
  simp [mainRun, envNoConfigs, envBase, save_ppm, check_shader_compile]

/-- C4 (amended): a false return from the eglChooseConfig call is a fatal
failure that is independently reported and aborts the pipeline before context
creation; however the call succeeding with zero matching configurations is
not detected, since numConfigs is never read, and the run is unaffected by
its value. -/
theorem chooseConfig_call_failure_fatal (env : GLEnv)
    (h1 : env.getDisplayOk = true) (h2 : env.initializeOk = true)
    (h3 : env.chooseConfigRet = false) :
    (mainRun env).exitCode = -1 ∧
    Event.errChooseConfig ∈ (mainRun env).events ∧
    Event.eglCreateContext ∉ (mainRun env).events ∧
    (mainRun env).file = none ∧
    (∀ n, mainRun { env with numConfigs := n } = mainRun env) := by
  have hind : ∀ n, mainRun { env with numConfigs := n } = mainRun env := by
    intro n
    cases env
    rfl
  refine ⟨?_, ?_, ?_, ?_, hind⟩ <;> simp [mainRun, h1, h2, h3]

/-- Environment in which eglChooseConfig itself fails. -/
def envChooseFail : GLEnv := { envBase with chooseConfigRet := false }

/-- Witness for the amended C4 at a concrete failing eglChooseConfig call. -/
theorem chooseConfig_call_failure_fatal_witness :
    (envChooseFail.getDisplayOk = true ∧ envChooseFail.initializeOk = true ∧
      envChooseFail.chooseConfigRet = false) ∧
    ((mainRun envChooseFail).exitCode = -1 ∧
     Event.errChooseConfig ∈ (mainRun envChooseFail).events ∧
     Event.eglCreateContext ∉ (mainRun envChooseFail).events ∧
     (mainRun envChooseFail).file = none ∧
     mainRun { envChooseFail with numConfigs := 0 } = mainRun envChooseFail) := by
  have T := chooseConfig_call_failure_fatal envChooseFail rfl rfl rfl
  exact ⟨⟨rfl, rfl, rfl⟩, T.1, T.2.1, T.2.2.1, T.2.2.2.1, T.2.2.2.2 0⟩

/-- Environment in which linking fails but everything else succeeds. -/
def envLinkFail : GLEnv := { envBase with linkOk := false }

/-- Counterexample to C5: with a failed link status the run does not halt
after glLinkProgram; it still draws, reads back and writes the file, exiting
with code 0, because GL_LINK_STATUS is never queried. -/
theorem link_failure_not_fatal_cex :
    envLinkFail.linkOk = false ∧
    (mainRun envLinkFail).exitCode = 0 ∧
    Event.drawArrays ∈ (mainRun envLinkFail).events ∧
    Event.readPixels ∈ (mainRun envLinkFail).events ∧
    (mainRun envLinkFail).file.isSome = true := by
  refine ⟨rfl, rfl, ?_, ?_, rfl⟩ <;>
    simp [mainRun, envLinkFail, envBase, save_ppm, check_shader_compile]

/-- C5 (amended): a shader-stage compile failure is reported as a diagnostic
(a stage log of at most 512 bytes) and does not abort the pipeline; the
program link status is never checked after glLinkProgram, so a link failure
does not abort the pipeline either (the run is unaffected by the link
status). -/
theorem compile_failure_nonfatal_link_unchecked (env : GLEnv)
    (hs : setupOk env = true) :
    (env.vertexCompileOk = false →
      Event.shaderCompileError (env.vertexLog.take 511) ∈ (mainRun env).events) ∧
    (env.fragmentCompileOk = false →
      Event.shaderCompileError (env.fragmentLog.take 511) ∈ (mainRun env).events) ∧
    (env.vertexLog.take 511).length ≤ 512 ∧
    Event.drawArrays ∈ (mainRun env).events ∧
    Event.readPixels ∈ (mainRun env).events ∧
    (∀ b, mainRun { env with linkOk := b } = mainRun env) := by
  obtain ⟨h1, h2, h3, h4, h5, h6, h7⟩ := (setupOk_iff env).mp hs
  have hind : ∀ b, mainRun { env with linkOk := b } = mainRun env := by
    intro b
    cases env
    rfl
  refine ⟨?_, ?_, ?_, ?_, ?_, hind⟩
  · intro hv
    simp [mainRun, h1, h2, h3, h4, h5, h6, h7, check_shader_compile, hv]
  · intro hf
    simp [mainRun, h1, h2, h3, h4, h5, h6, h7, check_shader_compile, hf]
  · calc (env.vertexLog.take 511).length ≤ 511 := by
          rw [List.length_take]; exact inf_le_left
      _ ≤ 512 := by norm_num
  · simp [mainRun, h1, h2, h3, h4, h5, h6, h7, check_shader_compile]
  · simp [mainRun, h1, h2, h3, h4, h5, h6, h7, check_shader_compile]

/-- Environment in which both shader stages fail to compile, with one-byte
logs, and linking fails as well. -/
def envCompileFail : GLEnv :=
  { envBase with
      vertexCompileOk := false
      vertexLog := [65]
      fragmentCompileOk := false
      fragmentLog := [66] }

/-- Witness for the amended C5 at a concrete run with failing compiles. -/
theorem compile_failure_nonfatal_link_unchecked_witness :
    (setupOk envCompileFail = true ∧ envCompileFail.vertexCompileOk = false ∧
      envCompileFail.fragmentCompileOk = false) ∧
    (Event.shaderCompileError (envCompileFail.vertexLog.take 511) ∈
        (mainRun envCompileFail).events ∧
     Event.shaderCompileError (envCompileFail.fragmentLog.take 511) ∈
        (mainRun envCompileFail).events ∧
     (envCompileFail.vertexLog.take 511).length ≤ 512 ∧
     Event.drawArrays ∈ (mainRun envCompileFail).events ∧
     Event.readPixels ∈ (mainRun envCompileFail).events ∧
     mainRun { envCompileFail with linkOk := false } = mainRun envCompileFail) := by
  have T := compile_failure_nonfatal_link_unchecked envCompileFail rfl
  exact ⟨⟨rfl, rfl, rfl⟩, T.1 rfl, T.2.1 rfl, T.2.2.1, T.2.2.2.1,
    T.2.2.2.2.1, T.2.2.2.2.2 false⟩

/-- C6: if the geometry uniform location lookup returns not-found (-1), the
pipeline only warns, uploads no geometry, and still proceeds through draw,
readback and the file write. -/
theorem uniform_missing_warns_and_continues (env : GLEnv)
    (hs : setupOk env = true) (hu : env.uniformLoc = -1)
    (hopen : env.fopenOk = true) :
    Event.warnUniformNotFound ∈ (mainRun env).events ∧
    Event.uniform4fv ∉ (mainRun env).events ∧
    Event.drawArrays ∈ (mainRun env).events ∧
    Event.readPixels ∈ (mainRun env).events ∧
    (mainRun env).savePath = some "output.ppm" ∧
    (mainRun env).file.isSome = true := by
  obtain ⟨h1, h2, h3, h4, h5, h6, h7⟩ := (setupOk_iff env).mp hs
  cases hv : env.vertexCompileOk <;> cases hf : env.fragmentCompileOk <;>
    simp [mainRun, h1, h2, h3, h4, h5, h6, h7, hu, hv, hf, hopen,
      save_ppm, check_shader_compile]

/-- Environment in which the uniform location lookup fails. -/
def envUniformMissing : GLEnv := { envBase with uniformLoc := -1 }

/-- Witness for C6 at a concrete run with a missing uniform location. -/
theorem uniform_missing_warns_and_continues_witness :
    (setupOk envUniformMissing = true ∧ envUniformMissing.uniformLoc = -1 ∧
      envUniformMissing.fopenOk = true) ∧
    (Event.warnUniformNotFound ∈ (mainRun envUniformMissing).events ∧
     Event.uniform4fv ∉ (mainRun envUniformMissing).events ∧
     Event.drawArrays ∈ (mainRun envUniformMissing).events ∧
     Event.readPixels ∈ (mainRun envUniformMissing).events ∧
     (mainRun envUniformMissing).savePath = some "output.ppm" ∧
     (mainRun envUniformMissing).file.isSome = true) :=
  ⟨⟨rfl, rfl, rfl⟩,
    uniform_missing_warns_and_continues envUniformMissing rfl rfl rfl⟩

/-- C7: if the framebuffer-completeness check does not return complete, the
run halts at that point with exit code -1: no draw call is issued, no
readback occurs, save_ppm is never reached and no output file is created. -/
theorem fbo_incomplete_halts_before_draw (env : GLEnv)
    (hfbo : env.fboComplete = false) :
    (mainRun env).exitCode = -1 ∧
    Event.drawArrays ∉ (mainRun env).events ∧
    Event.readPixels ∉ (mainRun env).events ∧
    (mainRun env).savePath = none ∧
    (mainRun env).file = none := by
  cases h1 : env.getDisplayOk <;> cases h2 : env.initializeOk <;>
    cases h3 : env.chooseConfigRet <;> cases h4 : env.createContextOk <;>
    cases h5 : env.createSurfaceOk <;> cases h6 : env.makeCurrentOk <;>
    simp [mainRun, h1, h2, h3, h4, h5, h6, hfbo]

/-- Environment in which the framebuffer is reported incomplete. -/
def envFboFail : GLEnv := { envBase with fboComplete := false }

/-- Witness for C7 at a concrete run with an incomplete framebuffer. -/
theorem fbo_incomplete_halts_before_draw_witness :
    (envFboFail.fboComplete = false) ∧
    ((mainRun envFboFail).exitCode = -1 ∧
     Event.drawArrays ∉ (mainRun envFboFail).events ∧
     Event.readPixels ∉ (mainRun envFboFail).events ∧
     (mainRun envFboFail).savePath = none ∧
     (mainRun envFboFail).file = none) :=
  ⟨rfl, fbo_incomplete_halts_before_draw envFboFail rfl⟩

/-- C8: the pipeline is deterministic. Any two complete runs that receive the
same readback bytes and the same fopen outcome produce byte-identical output
files at the same path, regardless of every other oracle answer (diagnostic
outcomes, link status, configuration count). -/
theorem complete_runs_byte_identical (e1 e2 : GLEnv)
    (hs1 : setupOk e1 = true) (hs2 : setupOk e2 = true)
    (hpix : e1.pixelData = e2.pixelData) (hopen : e1.fopenOk = e2.fopenOk) :
    (mainRun e1).file = (mainRun e2).file ∧
    (mainRun e1).savePath = (mainRun e2).savePath := by
  obtain ⟨a1, a2, a3, a4, a5, a6, a7⟩ := (setupOk_iff e1).mp hs1
  obtain ⟨b1, b2, b3, b4, b5, b6, b7⟩ := (setupOk_iff e2).mp hs2
  have hf1 : (mainRun e1).file = (save_ppm e1.fopenOk WIDTH HEIGHT e1.pixelData).2 := by
    simp [mainRun, a1, a2, a3, a4, a5, a6, a7]
  have hf2 : (mainRun e2).file = (save_ppm e2.fopenOk WIDTH HEIGHT e2.pixelData).2 := by
    simp [mainRun, b1, b2, b3, b4, b5, b6, b7]
  have hp1 : (mainRun e1).savePath = some "output.ppm" := by
    simp [mainRun, a1, a2, a3, a4, a5, a6, a7]
  have hp2 : (mainRun e2).savePath = some "output.ppm" := by
    simp [mainRun, b1, b2, b3, b4, b5, b6, b7]
  rw [hf1, hf2, hp1, hp2, hpix, hopen]
  exact ⟨rfl, rfl⟩

/-- Complete environment differing from envBase in every field the output
file must not depend on. -/
def envDetB : GLEnv :=
  { envBase with
      numConfigs := 7
      vertexCompileOk := false
      vertexLog := [88]
      linkOk := false
      uniformLoc := -1 }

/-- Witness for C8: two concrete complete runs with equal readback bytes and
equal fopen outcome but different diagnostic oracles produce identical
files. -/
theorem complete_runs_byte_identical_witness :
    (setupOk envBase = true ∧ setupOk envDetB = true ∧
      envBase.pixelData = envDetB.pixelData ∧ envBase.fopenOk = envDetB.fopenOk) ∧
    ((mainRun envBase).file = (mainRun envDetB).file ∧
     (mainRun envBase).savePath = (mainRun envDetB).savePath) :=
  ⟨⟨rfl, rfl, rfl, rfl⟩,
    complete_runs_byte_identical envBase envDetB rfl rfl rfl rfl⟩

/-- C9: whenever the run reaches the write step, the path handed to save_ppm
is exactly the fixed relative path "output.ppm". -/
theorem save_path_is_output_ppm (env : GLEnv) (hs : setupOk env = true) :
    (mainRun env).savePath = some "output.ppm" := by
  obtain ⟨h1, h2, h3, h4, h5, h6, h7⟩ := (setupOk_iff env).mp hs
  simp [mainRun, h1, h2, h3, h4, h5, h6, h7]

/-- Witness for C9 at the all-success environment. -/
theorem save_path_is_output_ppm_witness :
    (setupOk envBase = true) ∧ (mainRun envBase).savePath = some "output.ppm" :=
  ⟨rfl, save_path_is_output_ppm envBase rfl⟩

/-- C10: the exit code is 0 exactly when all seven setup checks pass, and -1
otherwise; in particular a failed fopen of the output file leaves the exit
code at 0, since setupOk does not involve the fopen outcome (second
conjunct). -/
theorem exit_code_zero_unless_setup_failure (env : GLEnv) :
    (mainRun env).exitCode = (if setupOk env = true then 0 else -1) ∧
    (mainRun { env with fopenOk := false }).exitCode =
      (if setupOk env = true then 0 else -1) := by
  obtain ⟨gd, ini, ccr, nc, cc, cs, mc, fbo, vc, vl, fc, fl, lk, ul, pd, fo⟩ := env
  cases gd <;> cases ini <;> cases ccr <;> cases cc <;> cases cs <;> cases mc <;>
    cases fbo <;> simp [mainRun, setupOk]
